import Mathlib

/-!
Verification of the vault-escrow client protocol (saqlain037/vault-escrow).

Shallow embedding of the TypeScript client scripts:
- `src/scripts/2_vault_and_escrow.ts` (vault init, vault ATA creation, lock_tokens)
- `src/unnamed/part_000` (escrow script: init_escrow + release_to_seller; mint script)

Public keys are 32-byte strings. SHA-256 and the program-derived-address search
(`PublicKey.findProgramAddress`) are external library primitives; they are taken
as function parameters (they are pure, deterministic functions), and the
development proves properties of the seed lists, payload layouts, account lists
and driver control flow built on top of them.
-/

namespace VaultEscrow

/-- A 32-byte public key, as produced by `PublicKey.toBuffer()`. -/
abbrev Pubkey : Type := { l : List Nat // l.length = 32 }

/-- Raw bytes of a public key (`.toBuffer()` in the scripts). -/
def Pubkey.bytes (p : Pubkey) : List Nat := p.val

/-- Convenience constructor for concrete 32-byte keys used in closed examples. -/
def mkPubkey (b : Nat) : Pubkey := ⟨List.replicate 32 b, by simp⟩

/-- Bytes of a string literal (`Buffer.from(s)` in the scripts, UTF-8). All
literals in the scripts are ASCII, where the code points are the UTF-8 bytes. -/
def strBytes (s : String) : List Nat := s.data.map (fun c => c.toNat)

/-- One entry of a `TransactionInstruction`'s `keys` array. -/
structure AccountMeta where
  pubkey : Pubkey
  isSigner : Bool
  isWritable : Bool
deriving DecidableEq

/-- A `@solana/web3.js` `TransactionInstruction`: program id, ordered account
references, and the opaque data payload. -/
structure TransactionInstruction where
  programId : Pubkey
  keys : List AccountMeta
  data : List Nat
deriving DecidableEq

/-- External library constant `SystemProgram.programId` (the all-zero key). -/
def systemProgramId : Pubkey := mkPubkey 0

/-- External library constant `TOKEN_PROGRAM_ID` from `@solana/spl-token`; the
byte value stands in for the external constant, no theorem depends on it. -/
def TOKEN_PROGRAM_ID : Pubkey := mkPubkey 6

/-- External library constant `ASSOCIATED_TOKEN_PROGRAM_ID` from
`@solana/spl-token`; byte value stands in for the external constant. -/
def ASSOCIATED_TOKEN_PROGRAM_ID : Pubkey := mkPubkey 7

/-- Little-endian byte encoding of a natural number at a fixed width `w`. -/
def toLEBytes : Nat → Nat → List Nat
  | _, 0 => []
  | n, w + 1 => n % 256 :: toLEBytes (n / 256) w

/-- Little-endian byte decoding. -/
def fromLEBytes : List Nat → Nat
  | [] => 0
  | b :: rest => b + 256 * fromLEBytes rest

/-- Node's `Buffer.writeBigUInt64LE`: writes 8 little-endian bytes, throwing
(`none`) when the value is outside `[0, 2^64)`. -/
def writeBigUInt64LE (v : Int) : Option (List Nat) :=
  if 0 ≤ v ∧ v < (2 : Int) ^ 64 then some (toLEBytes v.toNat 8) else none

/-- Node's `Buffer.writeBigInt64LE`: writes 8 little-endian two's-complement
bytes, throwing (`none`) when the value is outside `[-2^63, 2^63)`. -/
def writeBigInt64LE (v : Int) : Option (List Nat) :=
  if -(2 : Int) ^ 63 ≤ v ∧ v < (2 : Int) ^ 63 then
    some (toLEBytes (v % (2 : Int) ^ 64).toNat 8)
  else none

/-- Node's `Buffer.readBigUInt64LE` on a little-endian byte list. -/
def readBigUInt64LE (l : List Nat) : Nat := fromLEBytes l

/-- Node's `Buffer.readBigInt64LE`: two's-complement interpretation of 8
little-endian bytes. -/
def readBigInt64LE (l : List Nat) : Int :=
  let n : Int := fromLEBytes l
  if n < (2 : Int) ^ 63 then n else n - (2 : Int) ^ 64

/-- Anchor-style discriminator (`discriminator` in both scripts): first 8 bytes
of `sha256("global:" ++ ixName)`. The SHA-256 primitive is a parameter: it is a
pure function from `crypto`, not code of this repository. -/
def discriminator (sha256 : List Nat → List Nat) (ixName : String) : List Nat :=
  (sha256 (strBytes ("global:" ++ ixName))).take 8

/-- Type of the external `PublicKey.findProgramAddress` primitive: an ordered
list of seed byte-strings and a program id, yielding an address and a bump. -/
abbrev Fpa : Type := List (List Nat) → Pubkey → Pubkey × Nat

/-- Seed list fed to the vault PDA derivation: `["vault", mint, authority]`
(`deriveVaultPda` in both scripts). -/
def vaultSeeds (mint authority : Pubkey) : List (List Nat) :=
  [strBytes "vault", mint.bytes, authority.bytes]

/-- `deriveVaultPda` (both scripts): `findProgramAddress` on the vault seeds. -/
def deriveVaultPda (fpa : Fpa) (programId mint authority : Pubkey) : Pubkey × Nat :=
  fpa (vaultSeeds mint authority) programId

/-- Seed list fed to the escrow PDA derivation:
`["escrow", vault, buyer, seller]` (`deriveEscrowPda` in the escrow script). -/
def escrowSeeds (vaultPk buyerPk sellerPk : Pubkey) : List (List Nat) :=
  [strBytes "escrow", vaultPk.bytes, buyerPk.bytes, sellerPk.bytes]

/-- `deriveEscrowPda` (escrow script): `findProgramAddress` on the escrow
seeds. -/
def deriveEscrowPda (fpa : Fpa) (programId vaultPk buyerPk sellerPk : Pubkey) :
    Pubkey × Nat :=
  fpa (escrowSeeds vaultPk buyerPk sellerPk) programId

/-- `encodeInitVaultIx` from `2_vault_and_escrow.ts`: no args, 4 accounts. -/
def encodeInitVaultIx (sha256 : List Nat → List Nat)
    (programId authority mint vaultPda : Pubkey) : TransactionInstruction :=
  ⟨programId,
   [⟨authority, true, true⟩,
    ⟨mint, false, false⟩,
    ⟨vaultPda, false, true⟩,
    ⟨systemProgramId, false, false⟩],
   discriminator sha256 "init_vault"⟩

/-- `encodeLockTokensIx` from `2_vault_and_escrow.ts`:
data = discriminator ++ amount (u64 LE); `none` models the throw of
`writeBigUInt64LE` on out-of-range amounts. -/
def encodeLockTokensIx (sha256 : List Nat → List Nat)
    (programId user mint vaultPda vaultAta userAta : Pubkey) (amount : Int) :
    Option TransactionInstruction :=
  match writeBigUInt64LE amount with
  | none => none
  | some amountBuf =>
    some ⟨programId,
      [⟨user, true, true⟩,
       ⟨mint, false, false⟩,
       ⟨vaultPda, false, false⟩,
       ⟨vaultAta, false, true⟩,
       ⟨userAta, false, true⟩,
       ⟨TOKEN_PROGRAM_ID, false, false⟩,
       ⟨ASSOCIATED_TOKEN_PROGRAM_ID, false, false⟩,
       ⟨systemProgramId, false, false⟩],
      discriminator sha256 "lock_tokens" ++ amountBuf⟩

/-- `encodeInitEscrowIx` from the escrow script:
data = discriminator ++ amount (u64 LE) ++ deadline (i64 LE); `none` models the
throws of `writeBigUInt64LE` / `writeBigInt64LE` on out-of-range values. -/
def encodeInitEscrowIx (sha256 : List Nat → List Nat)
    (programId buyer seller mint vault escrow : Pubkey)
    (amount deadlineUnixTs : Int) : Option TransactionInstruction :=
  match writeBigUInt64LE amount, writeBigInt64LE deadlineUnixTs with
  | some amountBuf, some deadlineBuf =>
    some ⟨programId,
      [⟨buyer, true, true⟩,
       ⟨seller, false, false⟩,
       ⟨mint, false, false⟩,
       ⟨vault, false, false⟩,
       ⟨escrow, false, true⟩,
       ⟨systemProgramId, false, false⟩],
      discriminator sha256 "init_escrow" ++ amountBuf ++ deadlineBuf⟩
  | _, _ => none

/-- `encodeReleaseToSellerIx` from the escrow script: no args, 10 accounts. -/
def encodeReleaseToSellerIx (sha256 : List Nat → List Nat)
    (programId buyer seller mint escrow vault vaultAta sellerAta : Pubkey) :
    TransactionInstruction :=
  ⟨programId,
   [⟨buyer, true, true⟩,
    ⟨seller, false, true⟩,
    ⟨mint, false, false⟩,
    ⟨escrow, false, true⟩,
    ⟨vault, false, false⟩,
    ⟨vaultAta, false, true⟩,
    ⟨sellerAta, false, true⟩,
    ⟨TOKEN_PROGRAM_ID, false, false⟩,
    ⟨ASSOCIATED_TOKEN_PROGRAM_ID, false, false⟩,
    ⟨systemProgramId, false, false⟩],
   discriminator sha256 "release_to_seller"⟩

/-- Category of a failed `sendAndConfirmTransaction` submission (spec §7's
taxonomy of executor-side failures, as seen by the client). -/
inductive SubmitError
  | alreadyExists
  | authFailure
  | precondViolation
  | transient
deriving DecidableEq

/-- Errors a driver run can end with: the wallet-mismatch throw, an encoder
throw, or a propagated submission error. -/
inductive ClientErr
  | walletMismatch
  | encodeFail
  | submit (e : SubmitError)
deriving DecidableEq

/-- Fields of `deploy-info.json` read by both drivers. -/
structure DeployInfo where
  programId : Pubkey
  mint : Pubkey
  payer : Pubkey
  payerAta : Pubkey
deriving DecidableEq

/-- Observable result of a driver run: the transactions actually handed to
`sendAndConfirmTransaction`, in order, and the final outcome. -/
structure RunResult where
  submitted : List (List TransactionInstruction)
  outcome : Except ClientErr Unit

/-- `DECIMALS` from the mint script (`part_000`, second section). -/
def DECIMALS : Nat := 6

/-- `amountToLock` from `2_vault_and_escrow.ts` main: `100_000n`. -/
def amountToLock : Int := 100000

/-- `amountToEscrow` from the escrow script main: `50_000n`. -/
def amountToEscrow : Int := 50000

/-- `deadlineSec = nowSec + 3600` from the escrow script main. -/
def escrowDeadline (nowSec : Int) : Int := nowSec + 3600

/-- Driver of `2_vault_and_escrow.ts`. External primitives are parameters:
`gata` is `getAssociatedTokenAddress (mint, owner)`, `cata` is
`createAssociatedTokenAccountInstruction (payer, ata, owner, mint)`. The
network's responses to the three submissions are inputs `initVaultRes`,
`createAtaRes`, `lockRes`; the first two are ignored by the script (its
`try/catch` blocks log any error and continue), which is why they do not occur
in the body. -/
def script2Main (sha256 : List Nat → List Nat) (fpa : Fpa)
    (gata : Pubkey → Pubkey → Pubkey)
    (cata : Pubkey → Pubkey → Pubkey → Pubkey → TransactionInstruction)
    (info : DeployInfo) (localPayer : Pubkey)
    (_initVaultRes _createAtaRes lockRes : Except SubmitError Unit) : RunResult :=
  let buyer := info.payer
  if buyer = localPayer then
    let vaultPda := (deriveVaultPda fpa info.programId info.mint buyer).1
    let vaultAta := gata info.mint vaultPda
    let initVaultIx := encodeInitVaultIx sha256 info.programId buyer info.mint vaultPda
    let tx1 := [initVaultIx]
    let createVaultAtaIx := cata buyer vaultAta vaultPda info.mint
    let tx2 := [createVaultAtaIx]
    match encodeLockTokensIx sha256 info.programId buyer info.mint vaultPda vaultAta
        info.payerAta amountToLock with
    | none => ⟨[tx1, tx2], Except.error ClientErr.encodeFail⟩
    | some lockTokensIx =>
      let tx3 := [lockTokensIx]
      ⟨[tx1, tx2, tx3],
        match lockRes with
        | Except.ok _ => Except.ok ()
        | Except.error e => Except.error (ClientErr.submit e)⟩
  else ⟨[], Except.error ClientErr.walletMismatch⟩

/-- Driver of the escrow script (`part_000`, first section). `seller` stands
for `Keypair.generate().publicKey`; `vaultAtaBalance` is the vault holding's
current balance, a parameter recording that the script never queries it (no
balance read occurs between loading `deploy-info.json` and submitting
`init_escrow`). Neither submission is wrapped in `try/catch`: a failing
`sendAndConfirmTransaction` rejects the run. -/
def escrowMain (sha256 : List Nat → List Nat) (fpa : Fpa)
    (gata : Pubkey → Pubkey → Pubkey)
    (cata : Pubkey → Pubkey → Pubkey → Pubkey → TransactionInstruction)
    (info : DeployInfo) (localPayer seller : Pubkey)
    (nowSec : Int) (_vaultAtaBalance : Nat)
    (tx1Res tx2Res : Except SubmitError Unit) : RunResult :=
  let buyer := info.payer
  if buyer = localPayer then
    let vaultPda := (deriveVaultPda fpa info.programId info.mint buyer).1
    let escrowPda := (deriveEscrowPda fpa info.programId vaultPda buyer seller).1
    let vaultAta := gata info.mint vaultPda
    let sellerAta := gata info.mint seller
    let deadlineUnixTs := escrowDeadline nowSec
    match encodeInitEscrowIx sha256 info.programId buyer seller info.mint vaultPda
        escrowPda amountToEscrow deadlineUnixTs with
    | none => ⟨[], Except.error ClientErr.encodeFail⟩
    | some initEscrowIx =>
      let createSellerAtaIx := cata buyer sellerAta seller info.mint
      let tx1 := [createSellerAtaIx, initEscrowIx]
      match tx1Res with
      | Except.error e => ⟨[tx1], Except.error (ClientErr.submit e)⟩
      | Except.ok _ =>
        let releaseIx := encodeReleaseToSellerIx sha256 info.programId buyer seller
          info.mint escrowPda vaultPda vaultAta sellerAta
        let tx2 := [releaseIx]
        ⟨[tx1, tx2],
          match tx2Res with
          | Except.ok _ => Except.ok ()
          | Except.error e => Except.error (ClientErr.submit e)⟩
  else ⟨[], Except.error ClientErr.walletMismatch⟩

/-- Status of an escrow agreement (spec §4.4). -/
inductive EscrowStatus
  | active
  | released
deriving DecidableEq

/-- Balances and agreement state relevant to the release transition. -/
structure SettlementState where
  vaultHolding : Nat
  sellerHolding : Nat
  escrowStatus : EscrowStatus
  amountLocked : Nat
deriving DecidableEq

/-- Modelled from the spec: the on-chain vault-escrow program (the Rust program
the clients target, referenced by the test stub as `target/types/vault_escrow`)
is not under `src/`. Per spec §4.4, the release transition requires the
agreement to be Active, moves exactly `amountLocked` units from the vault
holding account to the seller holding account, and sets the status to
Released. -/
def releaseTransition (s : SettlementState) : Option SettlementState :=
  if s.escrowStatus = EscrowStatus.active ∧ s.amountLocked ≤ s.vaultHolding then
    some ⟨s.vaultHolding - s.amountLocked, s.sellerHolding + s.amountLocked,
          EscrowStatus.released, s.amountLocked⟩
  else none

/-- Modelled from the spec: custody-fund (spec §4.3) increases the vault
holding account's balance by exactly the locked amount. -/
def lockTransition (vaultHolding amount : Nat) : Nat := vaultHolding + amount

/-- Concrete stand-ins for the external primitives, used in closed witnesses
and counterexamples. `shaZ` is a (degenerate) 32-byte hash. -/
def shaZ : List Nat → List Nat := fun _ => List.replicate 32 0

/-- Concrete stand-in `findProgramAddress` for closed examples. -/
def fpaZ : Fpa := fun _ _ => (mkPubkey 3, 255)

/-- Concrete stand-in `getAssociatedTokenAddress` for closed examples. -/
def gataZ : Pubkey → Pubkey → Pubkey := fun _ _ => mkPubkey 4

/-- Concrete stand-in `createAssociatedTokenAccountInstruction` for closed
examples. -/
def cataZ : Pubkey → Pubkey → Pubkey → Pubkey → TransactionInstruction :=
  fun payerPk ata owner mint =>
    ⟨mkPubkey 5,
     [⟨payerPk, true, true⟩, ⟨ata, false, true⟩, ⟨owner, false, false⟩,
      ⟨mint, false, false⟩],
     []⟩

/-- Concrete `deploy-info.json` contents for closed examples; the recorded
payer is `mkPubkey 1`. -/
def infoZ : DeployInfo := ⟨mkPubkey 10, mkPubkey 11, mkPubkey 1, mkPubkey 12⟩

theorem toLEBytes_length (n w : Nat) : (toLEBytes n w).length = w := by
  induction w generalizing n with
  | zero => rfl
  | succ w ih => simp [toLEBytes, ih]

theorem fromLEBytes_toLEBytes (n w : Nat) :
    fromLEBytes (toLEBytes n w) = n % 256 ^ w := by
  induction w generalizing n with
  | zero => simp [toLEBytes, fromLEBytes, Nat.mod_one]
  | succ w ih =>
    simp only [toLEBytes, fromLEBytes, ih]
    rw [pow_succ', Nat.mod_mul]

theorem readBigUInt64LE_toLEBytes (n : Nat) (h : n < 2 ^ 64) :
    readBigUInt64LE (toLEBytes n 8) = n := by
  have h256 : (256 : Nat) ^ 8 = 2 ^ 64 := by norm_num
  rw [readBigUInt64LE, fromLEBytes_toLEBytes, h256, Nat.mod_eq_of_lt h]

theorem readBigInt64LE_write (v : Int) (h1 : -(2 : Int) ^ 63 ≤ v)
    (h2 : v < (2 : Int) ^ 63) :
    readBigInt64LE (toLEBytes ((v % (2 : Int) ^ 64).toNat) 8) = v := by
  have h256 : (256 : Nat) ^ 8 = 2 ^ 64 := by norm_num
  have hlt : (v % (2 : Int) ^ 64).toNat < 2 ^ 64 := by omega
  rw [readBigInt64LE, fromLEBytes_toLEBytes, h256, Nat.mod_eq_of_lt hlt]
  split <;> omega

theorem discriminator_length (sha256 : List Nat → List Nat)
    (h32 : ∀ m, (sha256 m).length = 32) (name : String) :
    (discriminator sha256 name).length = 8 := by
  simp [discriminator, h32]

/-- C1: the encoded release instruction's account-reference list is exactly, in
order: buyer (signer, mutable), seller (mutable, not signer), mint (read-only),
escrow (mutable), vault (read-only), vault ATA (mutable), seller ATA (mutable),
token program, associated-token program, system program (all read-only, not
signers); for every input, buyer's entry is the only one flagged as signer. -/
theorem C1_release_account_list (sha256 : List Nat → List Nat)
    (pid buyer seller mint escrow vault vaultAta sellerAta : Pubkey) :
    (encodeReleaseToSellerIx sha256 pid buyer seller mint escrow vault vaultAta
        sellerAta).keys =
      [⟨buyer, true, true⟩, ⟨seller, false, true⟩, ⟨mint, false, false⟩,
       ⟨escrow, false, true⟩, ⟨vault, false, false⟩, ⟨vaultAta, false, true⟩,
       ⟨sellerAta, false, true⟩, ⟨TOKEN_PROGRAM_ID, false, false⟩,
       ⟨ASSOCIATED_TOKEN_PROGRAM_ID, false, false⟩,
       ⟨systemProgramId, false, false⟩] ∧
    ((encodeReleaseToSellerIx sha256 pid buyer seller mint escrow vault vaultAta
        sellerAta).keys.map AccountMeta.isSigner) =
      [true, false, false, false, false, false, false, false, false, false] :=
  ⟨rfl, rfl⟩

/-- C2: the vault address is derived from exactly the ordered seed list
["vault", mint bytes, authority bytes] and nothing else; the derivation is a
pure function of (program id, mint, authority), so identical inputs give
identical address bytes and identical bump. -/
theorem C2_vault_derivation (fpa : Fpa)
    (pid mint authority pid' mint' authority' : Pubkey)
    (h1 : pid = pid') (h2 : mint = mint') (h3 : authority = authority') :
    vaultSeeds mint authority =
      [strBytes "vault", mint.bytes, authority.bytes] ∧
    deriveVaultPda fpa pid mint authority = fpa (vaultSeeds mint authority) pid ∧
    deriveVaultPda fpa pid mint authority =
      deriveVaultPda fpa pid' mint' authority' := by
  subst h1; subst h2; subst h3
  exact ⟨rfl, rfl, rfl⟩

/-- Witness for C2 at concrete inputs. -/
theorem C2_vault_derivation_witness :
    vaultSeeds (mkPubkey 1) (mkPubkey 2) =
      [strBytes "vault", (mkPubkey 1).bytes, (mkPubkey 2).bytes] ∧
    deriveVaultPda fpaZ (mkPubkey 0) (mkPubkey 1) (mkPubkey 2) =
      fpaZ (vaultSeeds (mkPubkey 1) (mkPubkey 2)) (mkPubkey 0) ∧
    deriveVaultPda fpaZ (mkPubkey 0) (mkPubkey 1) (mkPubkey 2) =
      deriveVaultPda fpaZ (mkPubkey 0) (mkPubkey 1) (mkPubkey 2) :=
  C2_vault_derivation fpaZ (mkPubkey 0) (mkPubkey 1) (mkPubkey 2)
    (mkPubkey 0) (mkPubkey 1) (mkPubkey 2) rfl rfl rfl

/-- C3: the agreement address is derived from exactly the ordered seed list
["escrow", vault bytes, buyer bytes, seller bytes]; inputs differing in vault,
buyer or seller give different concatenated seed byte-strings (the
concatenation of the fixed-width components is injective). -/
theorem C3_escrow_derivation (fpa : Fpa) (pid v b s v' b' s' : Pubkey)
    (hne : v ≠ v' ∨ b ≠ b' ∨ s ≠ s') :
    deriveEscrowPda fpa pid v b s = fpa (escrowSeeds v b s) pid ∧
    escrowSeeds v b s = [strBytes "escrow", v.bytes, b.bytes, s.bytes] ∧
    (escrowSeeds v b s).flatten ≠ (escrowSeeds v' b' s').flatten := by
  refine ⟨rfl, rfl, ?_⟩
  intro h
  simp only [escrowSeeds, List.flatten_cons, List.flatten_nil, List.append_nil] at h
  replace h := List.append_cancel_left h
  rcases List.append_inj h (by rw [Pubkey.bytes, Pubkey.bytes, v.2, v'.2]) with ⟨hv, h2⟩
  rcases List.append_inj h2 (by rw [Pubkey.bytes, Pubkey.bytes, b.2, b'.2]) with ⟨hb, hs⟩
  rcases hne with hne | hne | hne
  · exact hne (Subtype.ext hv)
  · exact hne (Subtype.ext hb)
  · exact hne (Subtype.ext hs)

/-- Witness for C3: changing only the vault component changes the concatenated
seeds. -/
theorem C3_escrow_derivation_witness :
    ((mkPubkey 1 : Pubkey) ≠ mkPubkey 2 ∨ (mkPubkey 3 : Pubkey) ≠ mkPubkey 3 ∨
      (mkPubkey 4 : Pubkey) ≠ mkPubkey 4) ∧
    (deriveEscrowPda fpaZ (mkPubkey 0) (mkPubkey 1) (mkPubkey 3) (mkPubkey 4) =
        fpaZ (escrowSeeds (mkPubkey 1) (mkPubkey 3) (mkPubkey 4)) (mkPubkey 0) ∧
      escrowSeeds (mkPubkey 1) (mkPubkey 3) (mkPubkey 4) =
        [strBytes "escrow", (mkPubkey 1).bytes, (mkPubkey 3).bytes,
         (mkPubkey 4).bytes] ∧
      (escrowSeeds (mkPubkey 1) (mkPubkey 3) (mkPubkey 4)).flatten ≠
        (escrowSeeds (mkPubkey 2) (mkPubkey 3) (mkPubkey 4)).flatten) :=
  ⟨Or.inl (by decide),
   C3_escrow_derivation fpaZ (mkPubkey 0) (mkPubkey 1) (mkPubkey 3) (mkPubkey 4)
     (mkPubkey 2) (mkPubkey 3) (mkPubkey 4) (Or.inl (by decide))⟩

/-- C4: the selector is the first 8 bytes of sha256("global:" ++ name); it is a
pure function of the name, always exactly 8 bytes long (given the hash's
32-byte output), stable across repeated encodings, and it is what the encoders
place at the start of the payload (shown for `init_vault`, whose payload is the
bare selector). -/
theorem C4_selector (sha256 : List Nat → List Nat)
    (h32 : ∀ m, (sha256 m).length = 32) (name : String)
    (pid a m v : Pubkey) :
    discriminator sha256 name =
      (sha256 (strBytes ("global:" ++ name))).take 8 ∧
    (discriminator sha256 name).length = 8 ∧
    discriminator sha256 name = discriminator sha256 name ∧
    (encodeInitVaultIx sha256 pid a m v).data =
      discriminator sha256 "init_vault" :=
  ⟨rfl, discriminator_length sha256 h32 name, rfl, rfl⟩

/-- Witness for C4 with a concrete 32-byte hash function and operation name. -/
theorem C4_selector_witness :
    (∀ m, (shaZ m).length = 32) ∧
    (discriminator shaZ "lock_tokens" =
        (shaZ (strBytes ("global:" ++ "lock_tokens"))).take 8 ∧
      (discriminator shaZ "lock_tokens").length = 8 ∧
      discriminator shaZ "lock_tokens" = discriminator shaZ "lock_tokens" ∧
      (encodeInitVaultIx shaZ (mkPubkey 1) (mkPubkey 2) (mkPubkey 3)
          (mkPubkey 4)).data = discriminator shaZ "init_vault") :=
  ⟨fun _ => by simp [shaZ],
   C4_selector shaZ (fun _ => by simp [shaZ]) "lock_tokens"
     (mkPubkey 1) (mkPubkey 2) (mkPubkey 3) (mkPubkey 4)⟩

/-- C5: for every in-range input, the lock_tokens payload is exactly the
8-byte selector followed by the amount as u64 LE (16 bytes total), and the
init_escrow payload is exactly the 8-byte selector followed by the amount as
u64 LE then the deadline as i64 LE (24 bytes total). -/
theorem C5_payload_layout (sha256 : List Nat → List Nat)
    (h32 : ∀ m, (sha256 m).length = 32)
    (pid user mint vaultPda vaultAta userAta buyer seller vault escrow : Pubkey)
    (amount deadline : Int)
    (ha0 : 0 ≤ amount) (ha1 : amount < (2 : Int) ^ 64)
    (hd0 : -(2 : Int) ^ 63 ≤ deadline) (hd1 : deadline < (2 : Int) ^ 63) :
    (∃ ix, encodeLockTokensIx sha256 pid user mint vaultPda vaultAta userAta
        amount = some ix ∧
      ix.data = discriminator sha256 "lock_tokens" ++ toLEBytes amount.toNat 8 ∧
      ix.data.length = 16) ∧
    (∃ ix, encodeInitEscrowIx sha256 pid buyer seller mint vault escrow amount
        deadline = some ix ∧
      ix.data = discriminator sha256 "init_escrow" ++ toLEBytes amount.toNat 8 ++
        toLEBytes ((deadline % (2 : Int) ^ 64).toNat) 8 ∧
      ix.data.length = 24) := by
  have hu : writeBigUInt64LE amount = some (toLEBytes amount.toNat 8) := by
    rw [writeBigUInt64LE, if_pos ⟨ha0, ha1⟩]
  have hi : writeBigInt64LE deadline =
      some (toLEBytes ((deadline % (2 : Int) ^ 64).toNat) 8) := by
    rw [writeBigInt64LE, if_pos ⟨hd0, hd1⟩]
  have henc1 : encodeLockTokensIx sha256 pid user mint vaultPda vaultAta userAta
      amount = some ⟨pid,
        [⟨user, true, true⟩, ⟨mint, false, false⟩, ⟨vaultPda, false, false⟩,
         ⟨vaultAta, false, true⟩, ⟨userAta, false, true⟩,
         ⟨TOKEN_PROGRAM_ID, false, false⟩,
         ⟨ASSOCIATED_TOKEN_PROGRAM_ID, false, false⟩,
         ⟨systemProgramId, false, false⟩],
        discriminator sha256 "lock_tokens" ++ toLEBytes amount.toNat 8⟩ := by
    rw [encodeLockTokensIx, hu]
  have henc2 : encodeInitEscrowIx sha256 pid buyer seller mint vault escrow
      amount deadline = some ⟨pid,
        [⟨buyer, true, true⟩, ⟨seller, false, false⟩, ⟨mint, false, false⟩,
         ⟨vault, false, false⟩, ⟨escrow, false, true⟩,
         ⟨systemProgramId, false, false⟩],
        discriminator sha256 "init_escrow" ++ toLEBytes amount.toNat 8 ++
          toLEBytes ((deadline % (2 : Int) ^ 64).toNat) 8⟩ := by
    rw [encodeInitEscrowIx, hu, hi]
  constructor
  · exact ⟨_, henc1, rfl, by
      simp [List.length_append, discriminator_length sha256 h32, toLEBytes_length]⟩
  · exact ⟨_, henc2, rfl, by
      simp [List.length_append, discriminator_length sha256 h32, toLEBytes_length]⟩

/-- Witness for C5 at amount 5 and deadline 7 with a concrete hash. -/
theorem C5_payload_layout_witness :
    (∀ m, (shaZ m).length = 32) ∧ (0 : Int) ≤ 5 ∧ (5 : Int) < (2 : Int) ^ 64 ∧
    -(2 : Int) ^ 63 ≤ 7 ∧ (7 : Int) < (2 : Int) ^ 63 ∧
    ((∃ ix, encodeLockTokensIx shaZ (mkPubkey 1) (mkPubkey 2) (mkPubkey 3)
        (mkPubkey 4) (mkPubkey 5) (mkPubkey 6) 5 = some ix ∧
      ix.data = discriminator shaZ "lock_tokens" ++ toLEBytes (5 : Int).toNat 8 ∧
      ix.data.length = 16) ∧
    (∃ ix, encodeInitEscrowIx shaZ (mkPubkey 1) (mkPubkey 7) (mkPubkey 8)
        (mkPubkey 3) (mkPubkey 9) (mkPubkey 10) 5 7 = some ix ∧
      ix.data = discriminator shaZ "init_escrow" ++ toLEBytes (5 : Int).toNat 8 ++
        toLEBytes (((7 : Int) % (2 : Int) ^ 64).toNat) 8 ∧
      ix.data.length = 24)) :=
  ⟨fun _ => by simp [shaZ], by norm_num, by norm_num, by norm_num, by norm_num,
   C5_payload_layout shaZ (fun _ => by simp [shaZ]) (mkPubkey 1) (mkPubkey 2)
     (mkPubkey 3) (mkPubkey 4) (mkPubkey 5) (mkPubkey 6) (mkPubkey 7) (mkPubkey 8)
     (mkPubkey 9) (mkPubkey 10) 5 7 (by norm_num) (by norm_num) (by norm_num)
     (by norm_num)⟩

/-- C10: the encoders never silently truncate: encodeLockTokensIx and
encodeInitEscrowIx yield no instruction exactly when the amount is outside
[0, 2^64) (or, for init_escrow, also when the deadline is outside
[-2^63, 2^63)); and decoding the bytes they write recovers the original value
exactly. -/
theorem C10_no_silent_truncation (sha256 : List Nat → List Nat)
    (pid user mint vaultPda vaultAta userAta buyer seller vault escrow : Pubkey)
    (amount deadline : Int) :
    (encodeLockTokensIx sha256 pid user mint vaultPda vaultAta userAta amount =
        none ↔ amount < 0 ∨ (2 : Int) ^ 64 ≤ amount) ∧
    (encodeInitEscrowIx sha256 pid buyer seller mint vault escrow amount
        deadline = none ↔
      amount < 0 ∨ (2 : Int) ^ 64 ≤ amount ∨ deadline < -(2 : Int) ^ 63 ∨
        (2 : Int) ^ 63 ≤ deadline) ∧
    (∀ buf, writeBigUInt64LE amount = some buf →
      (readBigUInt64LE buf : Int) = amount) ∧
    (∀ buf, writeBigInt64LE deadline = some buf →
      readBigInt64LE buf = deadline) := by
  refine ⟨?_, ?_, ?_, ?_⟩
  · rw [encodeLockTokensIx, writeBigUInt64LE]
    by_cases hc : 0 ≤ amount ∧ amount < (2 : Int) ^ 64
    · rw [if_pos hc]
      simp only [reduceCtorEq, false_iff]
      omega
    · rw [if_neg hc]
      simp only [true_iff]
      omega
  · rw [encodeInitEscrowIx, writeBigUInt64LE, writeBigInt64LE]
    by_cases hc : 0 ≤ amount ∧ amount < (2 : Int) ^ 64 <;>
      by_cases hd : -(2 : Int) ^ 63 ≤ deadline ∧ deadline < (2 : Int) ^ 63
    · rw [if_pos hc, if_pos hd]
      simp only [reduceCtorEq, false_iff]
      omega
    · rw [if_pos hc, if_neg hd]
      simp only [true_iff]
      omega
    · rw [if_neg hc, if_pos hd]
      simp only [true_iff]
      omega
    · rw [if_neg hc, if_neg hd]
      simp only [true_iff]
      omega
  · intro buf hbuf
    rw [writeBigUInt64LE] at hbuf
    by_cases hc : 0 ≤ amount ∧ amount < (2 : Int) ^ 64
    · rw [if_pos hc] at hbuf
      injection hbuf with hb
      subst hb
      rw [readBigUInt64LE_toLEBytes amount.toNat (by omega)]
      omega
    · rw [if_neg hc] at hbuf
      exact Option.noConfusion hbuf
  · intro buf hbuf
    rw [writeBigInt64LE] at hbuf
    by_cases hd : -(2 : Int) ^ 63 ≤ deadline ∧ deadline < (2 : Int) ^ 63
    · rw [if_pos hd] at hbuf
      simp only [Option.some.injEq] at hbuf
      subst hbuf
      exact readBigInt64LE_write deadline hd.1 hd.2
    · rw [if_neg hd] at hbuf
      exact Option.noConfusion hbuf

/-- Witness for C10: the roundtrip conjuncts applied at amount 300 and
deadline -5, with their `writeBig…` hypotheses discharged by computation. -/
theorem C10_no_silent_truncation_witness :
    ((readBigUInt64LE (toLEBytes ((300 : Int).toNat) 8) : Int) = 300) ∧
    (readBigInt64LE (toLEBytes (((-5 : Int) % (2 : Int) ^ 64).toNat) 8) = -5) :=
  ⟨(C10_no_silent_truncation shaZ (mkPubkey 1) (mkPubkey 2) (mkPubkey 3)
      (mkPubkey 4) (mkPubkey 5) (mkPubkey 6) (mkPubkey 1) (mkPubkey 2)
      (mkPubkey 3) (mkPubkey 4) 300 (-5)).2.2.1 _ (by rw [writeBigUInt64LE, if_pos (by norm_num)]),
   (C10_no_silent_truncation shaZ (mkPubkey 1) (mkPubkey 2) (mkPubkey 3)
      (mkPubkey 4) (mkPubkey 5) (mkPubkey 6) (mkPubkey 1) (mkPubkey 2)
      (mkPubkey 3) (mkPubkey 4) 300 (-5)).2.2.2 _ (by rw [writeBigInt64LE, if_pos (by norm_num)])⟩

theorem encodeLockTokensIx_amountToLock (sha256 : List Nat → List Nat)
    (pid user mint vaultPda vaultAta userAta : Pubkey) :
    encodeLockTokensIx sha256 pid user mint vaultPda vaultAta userAta
      amountToLock = some ⟨pid,
        [⟨user, true, true⟩, ⟨mint, false, false⟩, ⟨vaultPda, false, false⟩,
         ⟨vaultAta, false, true⟩, ⟨userAta, false, true⟩,
         ⟨TOKEN_PROGRAM_ID, false, false⟩,
         ⟨ASSOCIATED_TOKEN_PROGRAM_ID, false, false⟩,
         ⟨systemProgramId, false, false⟩],
        discriminator sha256 "lock_tokens" ++ toLEBytes amountToLock.toNat 8⟩ :=
  rfl

theorem encodeInitEscrowIx_amountToEscrow (sha256 : List Nat → List Nat)
    (pid b s m v e : Pubkey) (dl : Int)
    (hd0 : -(2 : Int) ^ 63 ≤ dl) (hd1 : dl < (2 : Int) ^ 63) :
    encodeInitEscrowIx sha256 pid b s m v e amountToEscrow dl =
      some ⟨pid,
        [⟨b, true, true⟩, ⟨s, false, false⟩, ⟨m, false, false⟩,
         ⟨v, false, false⟩, ⟨e, false, true⟩, ⟨systemProgramId, false, false⟩],
        discriminator sha256 "init_escrow" ++ toLEBytes amountToEscrow.toNat 8 ++
          toLEBytes ((dl % (2 : Int) ^ 64).toNat) 8⟩ := by
  rw [encodeInitEscrowIx, writeBigInt64LE, if_pos ⟨hd0, hd1⟩]
  exact rfl

/-- C6 counterexample: with a matching wallet, an authorization failure on the
init_vault submission and a transient failure on the vault-ATA submission are
both swallowed — the run still ends in `Except.ok` instead of propagating
them, although neither is the "already exists" condition. -/
theorem C6_counterexample :
    (script2Main shaZ fpaZ gataZ cataZ infoZ (mkPubkey 1)
        (Except.error SubmitError.authFailure) (Except.ok ())
        (Except.ok ())).outcome = Except.ok () ∧
    (script2Main shaZ fpaZ gataZ cataZ infoZ (mkPubkey 1)
        (Except.ok ()) (Except.error SubmitError.transient)
        (Except.ok ())).outcome = Except.ok () ∧
    SubmitError.authFailure ≠ SubmitError.alreadyExists ∧
    SubmitError.transient ≠ SubmitError.alreadyExists :=
  ⟨rfl, rfl, by decide, by decide⟩

/-- C6 amended: the driver's try/catch around init_vault and the vault-ATA
creation swallows every submission error, whatever its category — the run's
result does not depend on those two submission results at all; only a
lock_tokens submission error propagates to the caller. -/
theorem C6_amended_catch_all (sha256 : List Nat → List Nat) (fpa : Fpa)
    (gata : Pubkey → Pubkey → Pubkey)
    (cata : Pubkey → Pubkey → Pubkey → Pubkey → TransactionInstruction)
    (info : DeployInfo) (lp : Pubkey) (h : info.payer = lp)
    (i i' c c' l : Except SubmitError Unit) (e : SubmitError)
    (hl : l = Except.error e) :
    script2Main sha256 fpa gata cata info lp i c l =
      script2Main sha256 fpa gata cata info lp i' c' l ∧
    (script2Main sha256 fpa gata cata info lp i c l).outcome =
      Except.error (ClientErr.submit e) := by
  subst hl
  refine ⟨rfl, ?_⟩
  subst h
  simp only [script2Main, encodeLockTokensIx_amountToLock, if_pos]

/-- Witness for the amended C6: all four error categories on the first two
submissions leave the outcome unchanged, and a transient lock_tokens error is
what propagates. -/
theorem C6_amended_catch_all_witness :
    (script2Main shaZ fpaZ gataZ cataZ infoZ (mkPubkey 1)
        (Except.error SubmitError.authFailure) (Except.ok ())
        (Except.error SubmitError.transient) =
      script2Main shaZ fpaZ gataZ cataZ infoZ (mkPubkey 1)
        (Except.ok ()) (Except.error SubmitError.alreadyExists)
        (Except.error SubmitError.transient)) ∧
    (script2Main shaZ fpaZ gataZ cataZ infoZ (mkPubkey 1)
        (Except.error SubmitError.authFailure) (Except.ok ())
        (Except.error SubmitError.transient)).outcome =
      Except.error (ClientErr.submit SubmitError.transient) :=
  C6_amended_catch_all shaZ fpaZ gataZ cataZ infoZ (mkPubkey 1) rfl
    (Except.error SubmitError.authFailure) (Except.ok ()) (Except.ok ())
    (Except.error SubmitError.alreadyExists)
    (Except.error SubmitError.transient) SubmitError.transient rfl

/-- C7 counterexample: with the vault balance 0 — strictly less than the
50000-unit escrow amount — the driver still submits both transactions and the
run succeeds; it does not reject before submission. -/
theorem C7_counterexample :
    (escrowMain shaZ fpaZ gataZ cataZ infoZ (mkPubkey 1) (mkPubkey 2) 0 0
        (Except.ok ()) (Except.ok ())).submitted.length = 2 ∧
    (escrowMain shaZ fpaZ gataZ cataZ infoZ (mkPubkey 1) (mkPubkey 2) 0 0
        (Except.ok ()) (Except.ok ())).outcome = Except.ok () ∧
    (0 : Int) < amountToEscrow :=
  ⟨rfl, rfl, by norm_num [amountToEscrow]⟩

/-- C7 amended: the client makes no balance pre-check before agreement-init:
the whole run is independent of the vault's current balance, and whenever the
wallet matches (and the deadline fits in i64) the agreement-init transaction is
submitted regardless of that balance; enforcement of amount ≤ holdings is left
to the executor. -/
theorem C7_amended_no_precheck (sha256 : List Nat → List Nat) (fpa : Fpa)
    (gata : Pubkey → Pubkey → Pubkey)
    (cata : Pubkey → Pubkey → Pubkey → Pubkey → TransactionInstruction)
    (info : DeployInfo) (lp seller : Pubkey) (nowSec : Int) (b b' : Nat)
    (t1 t2 : Except SubmitError Unit) (h : info.payer = lp)
    (hd0 : -(2 : Int) ^ 63 ≤ escrowDeadline nowSec)
    (hd1 : escrowDeadline nowSec < (2 : Int) ^ 63) :
    escrowMain sha256 fpa gata cata info lp seller nowSec b t1 t2 =
      escrowMain sha256 fpa gata cata info lp seller nowSec b' t1 t2 ∧
    (escrowMain sha256 fpa gata cata info lp seller nowSec b t1 t2).submitted ≠
      [] := by
  refine ⟨rfl, ?_⟩
  subst h
  have he := encodeInitEscrowIx_amountToEscrow sha256 info.programId info.payer
    seller info.mint
    (deriveVaultPda fpa info.programId info.mint info.payer).1
    (deriveEscrowPda fpa info.programId
      (deriveVaultPda fpa info.programId info.mint info.payer).1 info.payer
      seller).1
    (escrowDeadline nowSec) hd0 hd1
  simp only [escrowMain, if_pos, he]
  cases t1 <;> simp

/-- Witness for the amended C7: balances 0 and 999999 give the same run, and
the submission list is nonempty despite the balance 0. -/
theorem C7_amended_no_precheck_witness :
    (escrowMain shaZ fpaZ gataZ cataZ infoZ (mkPubkey 1) (mkPubkey 2) 0 0
        (Except.ok ()) (Except.ok ()) =
      escrowMain shaZ fpaZ gataZ cataZ infoZ (mkPubkey 1) (mkPubkey 2) 0 999999
        (Except.ok ()) (Except.ok ())) ∧
    (escrowMain shaZ fpaZ gataZ cataZ infoZ (mkPubkey 1) (mkPubkey 2) 0 0
        (Except.ok ()) (Except.ok ())).submitted ≠ [] :=
  C7_amended_no_precheck shaZ fpaZ gataZ cataZ infoZ (mkPubkey 1) (mkPubkey 2)
    0 0 999999 (Except.ok ()) (Except.ok ()) rfl
    (by norm_num [escrowDeadline]) (by norm_num [escrowDeadline])

/-- C8: the end-to-end scenario constants are 6 decimals, 100000 base units
locked, 50000 escrowed, deadline now + 3600; with the spec-modelled settlement,
releasing after locking 100000 into an empty vault leaves 50000 in the vault
holding, 50000 with the seller, and the agreement Released. -/
theorem C8_end_to_end :
    DECIMALS = 6 ∧ amountToLock = 100000 ∧ amountToEscrow = 50000 ∧
    (∀ nowSec : Int, escrowDeadline nowSec = nowSec + 3600) ∧
    releaseTransition ⟨lockTransition 0 amountToLock.toNat, 0,
        EscrowStatus.active, amountToEscrow.toNat⟩ =
      some ⟨50000, 50000, EscrowStatus.released, 50000⟩ :=
  ⟨rfl, rfl, rfl, fun _ => rfl, by decide⟩

/-- C9: when the payer recorded in deploy-info.json differs from the local
keypair's public key, both drivers stop with the wallet-mismatch error and
submit no transaction at all. -/
theorem C9_wallet_guard (sha256 : List Nat → List Nat) (fpa : Fpa)
    (gata : Pubkey → Pubkey → Pubkey)
    (cata : Pubkey → Pubkey → Pubkey → Pubkey → TransactionInstruction)
    (info : DeployInfo) (lp seller : Pubkey) (nowSec : Int) (b : Nat)
    (i c l t1 t2 : Except SubmitError Unit) (h : info.payer ≠ lp) :
    script2Main sha256 fpa gata cata info lp i c l =
      ⟨[], Except.error ClientErr.walletMismatch⟩ ∧
    escrowMain sha256 fpa gata cata info lp seller nowSec b t1 t2 =
      ⟨[], Except.error ClientErr.walletMismatch⟩ := by
  constructor
  · simp only [script2Main]
    rw [if_neg h]
  · simp only [escrowMain]
    rw [if_neg h]

/-- Witness for C9 with a mismatched local payer. -/
theorem C9_wallet_guard_witness :
    infoZ.payer ≠ mkPubkey 2 ∧
    (script2Main shaZ fpaZ gataZ cataZ infoZ (mkPubkey 2) (Except.ok ())
        (Except.ok ()) (Except.ok ()) =
      ⟨[], Except.error ClientErr.walletMismatch⟩ ∧
    escrowMain shaZ fpaZ gataZ cataZ infoZ (mkPubkey 2) (mkPubkey 3) 0 0
        (Except.ok ()) (Except.ok ()) =
      ⟨[], Except.error ClientErr.walletMismatch⟩) :=
  ⟨by decide,
   C9_wallet_guard shaZ fpaZ gataZ cataZ infoZ (mkPubkey 2) (mkPubkey 3) 0 0
     (Except.ok ()) (Except.ok ()) (Except.ok ()) (Except.ok ()) (Except.ok ())
     (by decide)⟩

end VaultEscrow
